import Mathlib

/-
Shallow embedding of the mock telematics / maintenance / service-center /
notification tools of the EY_Techathon repository, together with proofs of
the behavioural properties stated in its specification.

Conventions used throughout:
* Python floats are modelled as exact rationals (ℚ); Python `round(x, k)`
  is modelled by round-half-to-even on `x * 10^k` (`pyRound`), and `int(x)`
  by truncation towards zero (`pyInt`).
* Python dictionaries that are used as finite maps are modelled as
  association lists (`List (String × α)`) preserving insertion order.
* `datetime.now()` is modelled as an abstract integer parameter `now`;
  `random.*` draws are modelled as explicit function parameters; the MD5
  digest used to seed the telematics generator is modelled as an abstract
  function parameter `hash : String → ℕ` (it is a fixed pure function of
  the vehicle id, shared by any two runs).
-/

set_option linter.unusedVariables false

namespace EYT

/-! ### Python-style rounding -/

/-- Round a rational to the nearest integer, ties to even
(the rounding used by Python's builtin `round`). -/
def halfEvenRound (x : ℚ) : ℤ :=
  if x - ⌊x⌋ < 1/2 then ⌊x⌋
  else if 1/2 < x - ⌊x⌋ then ⌊x⌋ + 1
  else if ⌊x⌋ % 2 = 0 then ⌊x⌋ else ⌊x⌋ + 1

/-- Python `round(x, k)` on exact rationals. -/
def pyRound (k : ℕ) (x : ℚ) : ℚ :=
  (halfEvenRound (x * 10 ^ k) : ℚ) / 10 ^ k

/-- Python `int(x)`: truncation towards zero. -/
def pyInt (x : ℚ) : ℤ :=
  if 0 ≤ x then ⌊x⌋ else ⌈x⌉

/-! ### MaintenanceHistoryAPI: failure prediction (`_predict_failures`) -/

/-- One entry of the `components` table of `_predict_failures`.  Factors the
source omits for a component are `0`, mirroring `component.get(key, 0)`. -/
structure Component where
  name : String
  base_failure_rate : ℚ
  age_factor : ℚ
  mileage_factor : ℚ
  usage_factor : ℚ
  climate_factor : ℚ
deriving DecidableEq

/-- The components table of `_predict_failures`, verbatim from the source. -/
def components : List Component :=
  [ ⟨"Brake Pads", 0.15, 0, 0.000008, 0, 0⟩
  , ⟨"Battery", 0.12, 0.05, 0, 0, 0⟩
  , ⟨"Alternator", 0.08, 0, 0.000005, 0, 0⟩
  , ⟨"Transmission", 0.06, 0, 0, 0.03, 0⟩
  , ⟨"Air Conditioning", 0.10, 0, 0, 0, 0.04⟩
  , ⟨"Water Pump", 0.07, 0.02, 0, 0, 0⟩
  , ⟨"Starter Motor", 0.05, 0, 0.000003, 0, 0⟩ ]

/-- `usage_multipliers.get(usage_pattern, 1.0)`. -/
def usageMultiplier (p : String) : ℚ :=
  if p = "city" then 1.2
  else if p = "highway" then 0.9
  else if p = "mixed" then 1.0
  else if p = "heavy_duty" then 1.4
  else 1.0

/-- `climate_multipliers.get(climate, 1.0)`. -/
def climateMultiplier (c : String) : ℚ :=
  if c = "temperate" then 1.0
  else if c = "hot" then 1.3
  else if c = "cold" then 1.1
  else if c = "humid" then 1.2
  else 1.0

/-- The `total_probability` computed for one component by
`_predict_failures`: linear sum of the factors, capped at `0.95`. -/
def totalProbability (c : Component) (vehicle_age mileage : ℤ)
    (usage climate : String) : ℚ :=
  min (c.base_failure_rate
        + c.age_factor * vehicle_age
        + c.mileage_factor * mileage
        + c.usage_factor * usageMultiplier usage
        + c.climate_factor * climateMultiplier climate) 0.95

/-- The `failure_probability` field of the prediction record returned by
`_predict_failures`: `round(total_probability, 3)`. -/
def failure_probability (c : Component) (vehicle_age mileage : ℤ)
    (usage climate : String) : ℚ :=
  pyRound 3 (totalProbability c vehicle_age mileage usage climate)

/-- Written from the specification's words (for claim C6): "the minimum of
0.95 and the linear sum base_failure_rate + age_factor*vehicle_age +
mileage_factor*mileage + usage_factor*usage_multiplier +
climate_factor*climate_multiplier". -/
def specLinearCap (c : Component) (vehicle_age mileage : ℤ)
    (usage climate : String) : ℚ :=
  min 0.95 (c.base_failure_rate
        + c.age_factor * vehicle_age
        + c.mileage_factor * mileage
        + c.usage_factor * usageMultiplier usage
        + c.climate_factor * climateMultiplier climate)

/-- The first entry of the `components` table. -/
def brakePadsC : Component := ⟨"Brake Pads", 0.15, 0, 0.000008, 0, 0⟩

/-! ### String primitives

Computable (structurally recursive) models of the Python string operations
used by the tools, working on the character list of the string so that
concrete runs reduce inside the kernel. -/

/-- Python `s[-3:]`. -/
def pyLast3 (s : String) : String :=
  String.mk (s.data.drop (s.data.length - 3))

/-- Python `s[n:]`. -/
def pyDrop (s : String) (n : ℕ) : String := String.mk (s.data.drop n)

/-- Python `s.startswith(p)`. -/
def pyStartsWith (s p : String) : Bool := s.data.take p.data.length == p.data

/-- Nonempty and all ASCII decimal digits: the strings that Python's
`str.isdigit()` and `int()` both accept.  This is the right test wherever
the tools only ever see such strings; where `isdigit` and `int()` can
disagree (the telematics vehicle-number parse), `pyIsDigitU` and
`pyVehicleNumE` below model the divergence. -/
def pyIsDigit (s : String) : Bool :=
  !(s.data == []) && s.data.all Char.isDigit

/-- Fragment of Python's `str.isdigit` character class: the ASCII decimal
digits together with the superscript digits `¹`, `²`, `³`, which have
Unicode `Numeric_Type=Digit` (so `str.isdigit()` accepts them) but are not
decimal digits (so `int()` raises `ValueError` on them). -/
def pyCharIsDigitU (c : Char) : Bool :=
  c.isDigit || c == '¹' || c == '²' || c == '³'

/-- Python `s.isdigit()` over the modelled character fragment. -/
def pyIsDigitU (s : String) : Bool :=
  !(s.data == []) && s.data.all pyCharIsDigitU

/-- Split a character list at every occurrence of `sep`. -/
def splitOnChar (sep : Char) : List Char → List (List Char)
  | [] => [[]]
  | c :: rest =>
    let r := splitOnChar sep rest
    if c == sep then [] :: r
    else
      match r with
      | [] => [[c]]
      | h :: t => (c :: h) :: t

/-- Python `s.split(sep)` for a one-character separator. -/
def pySplitOn (s : String) (sep : Char) : List String :=
  (splitOnChar sep s.data).map String.mk

/-! ### MaintenanceHistoryAPI: fleet data and id validation -/

/-- Value of an all-ASCII-digit string, `int(s)` for such strings. -/
def digitsToNat (s : String) : ℕ :=
  s.data.foldl (fun a c => 10 * a + (c.toNat - 48)) 0

/-- Python `str(n).zfill(3)` for a natural number. -/
def zfill3 (n : ℕ) : String :=
  let s := toString n
  if s.length < 3 then String.mk (List.replicate (3 - s.length) '0') ++ s else s

/-- The per-vehicle record of `_generate_vehicle_data`.  `draw i` is the
`random.randint(-2000, 8000)` drawn for vehicle `i` in the current call. -/
structure VehicleData where
  year : ℕ
  make : String
  model : String
  mileage : ℤ
  usage_pattern : String
  climate : String
  manufacturing_batch : String
deriving DecidableEq

/-- The entry for vehicle `i` in the `vehicles` dictionary built by
`_generate_vehicle_data`. -/
def vehicleRecord (draw : ℕ → ℤ) (i : ℕ) : VehicleData :=
  { year := 2020 + i % 4
  , make := ["Toyota", "Honda", "Ford", "Chevrolet"].getD (i % 4) ""
  , model := ["Camry", "Accord", "F-150", "Silverado"].getD (i % 4) ""
  , mileage := 15000 + (i : ℤ) * 5000 + draw i
  , usage_pattern := ["city", "highway", "mixed", "heavy_duty"].getD (i % 4) ""
  , climate := ["temperate", "hot", "cold", "humid"].getD (i % 4) ""
  , manufacturing_batch :=
      "BATCH_" ++ toString (2020 + i % 2) ++ "_"
        ++ String.singleton (Char.ofNat (65 + i % 3)) }

/-- The keys `VEH001`-`VEH010` of the `vehicles` dictionary. -/
def fleetIds : List String := (List.range' 1 10).map (fun i => "VEH" ++ zfill3 i)

/-- `_generate_vehicle_data`: `vehicles.get(vehicle_id, vehicles["VEH001"])`. -/
def generate_vehicle_data (draw : ℕ → ℤ) (vehicle_id : String) : VehicleData :=
  match (List.range' 1 10).find? (fun i => "VEH" ++ zfill3 i == vehicle_id) with
  | some i => vehicleRecord draw i
  | none => vehicleRecord draw 1

/-- The vehicle-id validation performed by `MaintenanceHistoryAPI._run`:
`vehicle_id.startswith("VEH") and vehicle_id[3:].isdigit()` (ASCII digits). -/
def mhValidId (vehicle_id : String) : Bool :=
  pyStartsWith vehicle_id "VEH" && pyIsDigit (pyDrop vehicle_id 3)

/-! ### VehicleTelematicsAPI -/

/-- One step of the linear congruential generator used by `_seeded_random`
and by the inline seed updates of `VehicleTelematicsAPI._run`:
`(seed * 1103515245 + 12345) & 0x7fffffff`. -/
def lcg (seed : ℕ) : ℕ := (seed * 1103515245 + 12345) % 2147483648

/-- `_seeded_random(seed, min_val, max_val)`. -/
def seeded_random (seed : ℕ) (min_val max_val : ℚ) : ℚ :=
  min_val + ((lcg seed : ℚ) / 2147483647) * (max_val - min_val)

/-- `int(vehicle_id[-3:]) if vehicle_id[-3:].isdigit() else 1`, on the
inputs where it does not raise (wherever `pyVehicleNumE` is `some`, it
agrees with this value). -/
def pyVehicleNum (vehicle_id : String) : ℕ :=
  if pyIsDigit (pyLast3 vehicle_id) then digitsToNat (pyLast3 vehicle_id) else 1

/-- `int(vehicle_id[-3:]) if vehicle_id[-3:].isdigit() else 1` with the
raise of `int()` made explicit: when the suffix passes `str.isdigit()` but
contains a non-decimal digit (for example `²`), `int()` raises
`ValueError` — modelled as `none` — and `VehicleTelematicsAPI._run` falls
through to its except clause. -/
def pyVehicleNumE (vehicle_id : String) : Option ℕ :=
  if pyIsDigitU (pyLast3 vehicle_id) then
    if pyIsDigit (pyLast3 vehicle_id) then some (digitsToNat (pyLast3 vehicle_id))
    else none
  else some 1

/-- Result of `_get_maintenance_status`. -/
structure MaintStatus where
  has_warnings : Bool
  warning_level : String
  maintenance_due : Bool
deriving DecidableEq

/-- `_get_maintenance_status(seed, vehicle_num)` (the `seed` argument is
unused by the source as well). -/
def get_maintenance_status (seed : ℕ) (vehicle_num : ℕ) : MaintStatus :=
  if vehicle_num ∈ [2, 4, 6, 8, 10] then
    { has_warnings := true
    , warning_level := if vehicle_num ∈ [4, 8] then "high" else "medium"
    , maintenance_due := true }
  else
    { has_warnings := decide (vehicle_num ∈ [3, 7])
    , warning_level := if vehicle_num ∈ [3, 7] then "low" else "none"
    , maintenance_due := false }

/-- `_generate_dtcs(vehicle_id, maintenance_status)`. -/
def generate_dtcs (vehicle_id : String) (ms : MaintStatus) : List String :=
  let vehicle_num := pyVehicleNum vehicle_id
  if ms.has_warnings then
    if vehicle_num = 2 then ["P0300", "P0171"]
    else if vehicle_num = 4 then ["P0128", "P0420", "P0171"]
    else if vehicle_num = 6 then ["P0562", "P0118"]
    else if vehicle_num = 8 then ["P0420", "P0300", "P0128"]
    else if vehicle_num = 10 then ["P0171", "P0562"]
    else if vehicle_num ∈ [3, 7] then
      if vehicle_num = 3 then ["P0420"] else ["P0171"]
    else []
  else []

/-- `_get_driving_style_description(score)`. -/
def get_driving_style_description (score : ℤ) : String :=
  if 90 ≤ score then "Excellent - Smooth and efficient driving"
  else if 80 ≤ score then "Good - Generally safe driving habits"
  else if 70 ≤ score then "Fair - Some aggressive acceleration/braking"
  else if 60 ≤ score then "Poor - Frequent harsh driving events"
  else "Critical - Dangerous driving patterns detected"

/-- `_generate_alerts`: the list concatenation mirrors the sequence of
conditional `append` calls. -/
def generate_alerts (ms : MaintStatus)
    (oil_pressure brake_thickness battery_voltage : ℚ)
    (tire_pressures : List ℚ) (coolant_level : ℚ) : List String :=
  (if oil_pressure < 30 then
    ["LOW OIL PRESSURE - Check engine oil level immediately"] else [])
  ++ (if brake_thickness < 4 then
    ["BRAKE PADS WORN - Schedule brake service soon"] else [])
  ++ (if battery_voltage < 12.0 then
    ["LOW BATTERY VOLTAGE - Battery may need replacement"] else [])
  ++ (if tire_pressures.any (fun p => decide (p < 28)) then
    ["LOW TIRE PRESSURE - Check tire inflation"] else [])
  ++ (if coolant_level < 70 then
    ["LOW COOLANT LEVEL - Check for leaks and refill"] else [])
  ++ (if ms.maintenance_due then
    ["SCHEDULED MAINTENANCE DUE - Contact service department"] else [])

/-- The telematics payload assembled by `VehicleTelematicsAPI._run`,
flattened: one field per leaf value of the returned JSON object.  ISO
timestamps are represented by the abstract instant `now : ℤ`; dates that
the source derives from `datetime.now()` are day counts relative to it. -/
structure Snapshot where
  vehicle_id : String
  timestamp : ℤ
  rpm : ℚ
  temperature_f : ℚ
  oil_pressure_psi : ℚ
  front_pad_thickness_mm : ℚ
  rear_pad_thickness_mm : ℚ
  battery_voltage : ℚ
  transmission_temperature_f : ℚ
  coolant_level_percent : ℚ
  tire_pressure_psi : List ℚ
  odometer_miles : ℤ
  fuel_level_percent : ℚ
  latitude : ℚ
  longitude : ℚ
  diagnostic_codes : List String
  last_service_date : ℤ
  maintenance_due : Bool
  warning_level : String
  daily_average_miles : ℤ
  driving_style_score : ℤ
  driving_style_description : String
  alerts : List String
deriving DecidableEq

/-- `VehicleTelematicsAPI._run`, with the MD5-based `_generate_seed`
abstracted into the fixed pure function `hash` and `datetime.now()` into
`now`.  The seed chain `s1, s2, …` mirrors the successive
`current_seed = (current_seed * 1103515245 + 12345) & 0x7fffffff` updates. -/
def telematics_run (hash : String → ℕ) (now : ℤ) (vehicle_id : String) : Snapshot :=
  let base_seed := hash vehicle_id
  let vehicle_num := pyVehicleNum vehicle_id
  let ms := get_maintenance_status base_seed vehicle_num
  let base_lat : ℚ := 40.7128 + (vehicle_num : ℚ) * 0.1 - 0.5
  let base_lng : ℚ := -74.0060 + (vehicle_num : ℚ) * 0.1 - 0.5
  let s1 := lcg base_seed
  let engine_rpm := (if ms.warning_level = "none" then (800 : ℚ) else 850)
    + seeded_random s1 0 200
  let s2 := lcg s1
  let engine_temp := (if ms.warning_level = "none" then (195 : ℚ) else 210)
    + seeded_random s2 (-5) 15
  let s3 := lcg s2
  let oil_pressure :=
    (if ms.warning_level = "none" ∨ ms.warning_level = "low" then (40 : ℚ) else 25)
      + seeded_random s3 (-5) 10
  let s4 := lcg s3
  let brake_pad_thickness := (if ms.warning_level = "none" then (8 : ℚ) else 3)
    + seeded_random s4 (-1) 2
  let s5 := lcg s4
  let battery_voltage := (if ms.warning_level = "none" then (12.6 : ℚ) else 11.8)
    + seeded_random s5 (-0.3) 0.4
  let s6 := lcg s5
  let trans_temp := 175 + seeded_random s6 (-10) 25
  let s7 := lcg s6
  let coolant_level := 85 + seeded_random s7 (-10) 15
    - (if ms.warning_level = "high" ∨ ms.warning_level = "medium" then 20 else 0)
  let s8 := lcg s7
  let tire0 := (32 : ℚ) + seeded_random s8 (-3) 3
    - (if ms.warning_level = "high" ∧ vehicle_num % 4 = 0 then 8 else 0)
  let s9 := lcg s8
  let tire1 := (32 : ℚ) + seeded_random s9 (-3) 3
    - (if ms.warning_level = "high" ∧ vehicle_num % 4 = 1 then 8 else 0)
  let s10 := lcg s9
  let tire2 := (32 : ℚ) + seeded_random s10 (-3) 3
    - (if ms.warning_level = "high" ∧ vehicle_num % 4 = 2 then 8 else 0)
  let s11 := lcg s10
  let tire3 := (32 : ℚ) + seeded_random s11 (-3) 3
    - (if ms.warning_level = "high" ∧ vehicle_num % 4 = 3 then 8 else 0)
  let tire_pressures := [pyRound 1 tire0, pyRound 1 tire1, pyRound 1 tire2, pyRound 1 tire3]
  let s12 := lcg s11
  let odometer := pyInt (25000 + (vehicle_num : ℚ) * 5000 + seeded_random s12 0 15000)
  let s13 := lcg s12
  let fuel_level := 25 + seeded_random s13 0 70
  let s14 := lcg s13
  let gps_lat := base_lat + seeded_random s14 (-0.01) 0.01
  let s15 := lcg s14
  let gps_lng := base_lng + seeded_random s15 (-0.01) 0.01
  let s16 := lcg s15
  let daily_miles := pyInt (30 + seeded_random s16 0 120)
  let s17 := lcg s16
  let driving_style_score :=
    pyInt ((if ms.warning_level = "none" then (85 : ℚ) else 65) + seeded_random s17 (-15) 15)
  let days_ago : ℤ := if ms.maintenance_due then 30 else 15
  { vehicle_id := vehicle_id
  , timestamp := now
  , rpm := pyRound 0 engine_rpm
  , temperature_f := pyRound 1 engine_temp
  , oil_pressure_psi := pyRound 1 oil_pressure
  , front_pad_thickness_mm := pyRound 1 brake_pad_thickness
  , rear_pad_thickness_mm := pyRound 1 (brake_pad_thickness + seeded_random s17 (-1) 1)
  , battery_voltage := pyRound 2 battery_voltage
  , transmission_temperature_f := pyRound 1 trans_temp
  , coolant_level_percent := pyRound 1 (max 0 (min 100 coolant_level))
  , tire_pressure_psi := tire_pressures
  , odometer_miles := odometer
  , fuel_level_percent := pyRound 1 fuel_level
  , latitude := pyRound 6 gps_lat
  , longitude := pyRound 6 gps_lng
  , diagnostic_codes := generate_dtcs vehicle_id ms
  , last_service_date := now - (days_ago + (vehicle_num : ℤ) * 5)
  , maintenance_due := ms.maintenance_due
  , warning_level := ms.warning_level
  , daily_average_miles := daily_miles
  , driving_style_score := driving_style_score
  , driving_style_description := get_driving_style_description driving_style_score
  , alerts := generate_alerts ms oil_pressure brake_pad_thickness battery_voltage
      tire_pressures coolant_level }

/-- The components of a telematics snapshot that are derived from the seed
and the vehicle number alone (everything except the two values the source
derives from `datetime.now()`: `timestamp` and `last_service_date`). -/
def Snapshot.seedDerived (s : Snapshot) :=
  (s.vehicle_id, s.rpm, s.temperature_f, s.oil_pressure_psi,
   s.front_pad_thickness_mm, s.rear_pad_thickness_mm, s.battery_voltage,
   s.transmission_temperature_f, s.coolant_level_percent, s.tire_pressure_psi,
   s.odometer_miles, s.fuel_level_percent, s.latitude, s.longitude,
   s.diagnostic_codes, s.maintenance_due, s.warning_level,
   s.daily_average_miles, s.driving_style_score, s.driving_style_description,
   s.alerts)

/-- The value returned by `VehicleTelematicsAPI._run`: `json.dumps` of a
snapshot dictionary, or — from the except clause — a bare Python string
that is not a JSON object. -/
inductive TelResult where
  | payload (s : Snapshot)
  | errString (msg : String)
deriving DecidableEq

/-- `VehicleTelematicsAPI._run` including its try/except: the only
raising operation for a string input is `int(vehicle_id[-3:])` on a suffix
that passes `isdigit` but is not decimal; the except clause then returns
the bare string `"Error generating vehicle telematics data: " + str(e)`
instead of a JSON payload. -/
def telematics_run_result (hash : String → ℕ) (now : ℤ) (vehicle_id : String) :
    TelResult :=
  match pyVehicleNumE vehicle_id with
  | some _ => .payload (telematics_run hash now vehicle_id)
  | none => .errString ("Error generating vehicle telematics data: invalid literal for int() with base 10: '"
      ++ pyLast3 vehicle_id ++ "'")

/-! ### Calendar and parsing helpers (`datetime.strptime` / `strftime("%A")`) -/

/-- Gregorian leap-year rule. -/
def isLeap (y : ℕ) : Bool := (y % 4 == 0 && y % 100 != 0) || y % 400 == 0

/-- Number of days in month `m` of year `y` (`0` off-range). -/
def daysInMonth (y m : ℕ) : ℕ :=
  if m = 1 then 31 else if m = 2 then (if isLeap y then 29 else 28)
  else if m = 3 then 31 else if m = 4 then 30 else if m = 5 then 31
  else if m = 6 then 30 else if m = 7 then 31 else if m = 8 then 31
  else if m = 9 then 30 else if m = 10 then 31 else if m = 11 then 30
  else if m = 12 then 31 else 0

/-- Days in year `y` strictly before month `m`. -/
def daysBeforeMonth (y m : ℕ) : ℕ :=
  ((List.range (m - 1)).map (fun k => daysInMonth y (k + 1))).sum

/-- Proleptic Gregorian ordinal of a date, as in `datetime.date.toordinal`
(ordinal 1 is 0001-01-01, a Monday). -/
def dateOrdinal (y m d : ℕ) : ℕ :=
  365 * (y - 1) + (y - 1) / 4 - (y - 1) / 100 + (y - 1) / 400
    + daysBeforeMonth y m + d

/-- `date.strftime("%A").lower()`. -/
def dayOfWeekName (y m d : ℕ) : String :=
  ["monday", "tuesday", "wednesday", "thursday", "friday", "saturday",
   "sunday"].getD ((dateOrdinal y m d + 6) % 7) ""

/-- Parse a nonempty all-digit string. -/
def parseNat (s : String) : Option ℕ :=
  if pyIsDigit s then some (digitsToNat s) else none

/-- `datetime.strptime(date, "%Y-%m-%d")`: `none` models the `ValueError`. -/
def parseDate (s : String) : Option (ℕ × ℕ × ℕ) :=
  match pySplitOn s '-' with
  | [ys, ms, ds] =>
    match parseNat ys, parseNat ms, parseNat ds with
    | some y, some m, some d =>
      if 1 ≤ y ∧ y ≤ 9999 ∧ 1 ≤ m ∧ m ≤ 12 ∧ 1 ≤ d ∧ d ≤ daysInMonth y m then
        some (y, m, d)
      else none
    | _, _, _ => none
  | _ => none

/-- `datetime.strptime(time, "%H:%M").time()`, as minutes since midnight
(`time` objects compare like this pair). -/
def parseTime (s : String) : Option ℕ :=
  match pySplitOn s ':' with
  | [hs, ms] =>
    match parseNat hs, parseNat ms with
    | some h, some m => if h ≤ 23 ∧ m ≤ 59 then some (h * 60 + m) else none
    | _, _ => none
  | _ => none

/-- Python `str.capitalize()`. -/
def pyCapitalize (s : String) : String :=
  match s.data with
  | [] => ""
  | c :: rest => String.mk (c.toUpper :: rest.map Char.toLower)

/-- First-match lookup in an association list, like indexing a Python dict
with unique keys. -/
def alistFind {α : Type} (l : List (String × α)) (k : String) : Option α :=
  (l.find? (fun p => p.1 == k)).map (·.2)

/-! ### ServiceCenterAPI -/

structure ServiceCenter where
  id : String
  name : String
  address : String
  city : String
  state : String
  phone : String
  email : String
  working_hours : List (String × String)
  services : List String
  capacity : ℕ
  manager : String
deriving DecidableEq

def mumbaiCenter : ServiceCenter :=
  { id := "mumbai", name := "Mumbai Service Center"
  , address := "Plot No. 123, Andheri East, Mumbai, Maharashtra 400069"
  , city := "Mumbai", state := "Maharashtra", phone := "+91-22-2834-5678"
  , email := "mumbai@servicecenters.in"
  , working_hours :=
      [("monday", "09:00-18:00"), ("tuesday", "09:00-18:00"),
       ("wednesday", "09:00-18:00"), ("thursday", "09:00-18:00"),
       ("friday", "09:00-18:00"), ("saturday", "09:00-16:00"),
       ("sunday", "closed")]
  , services := ["oil_change", "brake_service", "tire_replacement",
      "battery_check", "general_inspection", "ac_service",
      "engine_diagnostics", "suspension_service"]
  , capacity := 15, manager := "Rajesh Sharma" }

def delhiCenter : ServiceCenter :=
  { id := "delhi", name := "Delhi Service Center"
  , address := "Sector 18, Noida, Uttar Pradesh 201301"
  , city := "Delhi", state := "Delhi", phone := "+91-11-4567-8901"
  , email := "delhi@servicecenters.in"
  , working_hours :=
      [("monday", "08:30-19:00"), ("tuesday", "08:30-19:00"),
       ("wednesday", "08:30-19:00"), ("thursday", "08:30-19:00"),
       ("friday", "08:30-19:00"), ("saturday", "08:30-17:00"),
       ("sunday", "10:00-15:00")]
  , services := ["oil_change", "brake_service", "tire_replacement",
      "battery_check", "general_inspection", "ac_service",
      "engine_diagnostics", "transmission_service", "electrical_work"]
  , capacity := 20, manager := "Priya Gupta" }

def bangaloreCenter : ServiceCenter :=
  { id := "bangalore", name := "Bangalore Service Center"
  , address := "Electronic City Phase 2, Bangalore, Karnataka 560100"
  , city := "Bangalore", state := "Karnataka", phone := "+91-80-1234-5678"
  , email := "bangalore@servicecenters.in"
  , working_hours :=
      [("monday", "09:00-18:30"), ("tuesday", "09:00-18:30"),
       ("wednesday", "09:00-18:30"), ("thursday", "09:00-18:30"),
       ("friday", "09:00-18:30"), ("saturday", "09:00-17:00"),
       ("sunday", "closed")]
  , services := ["oil_change", "brake_service", "tire_replacement",
      "battery_check", "general_inspection", "ac_service",
      "engine_diagnostics", "hybrid_service", "software_updates"]
  , capacity := 18, manager := "Venkat Reddy" }

def chennaiCenter : ServiceCenter :=
  { id := "chennai", name := "Chennai Service Center"
  , address := "OMR Road, Thoraipakkam, Chennai, Tamil Nadu 600097"
  , city := "Chennai", state := "Tamil Nadu", phone := "+91-44-9876-5432"
  , email := "chennai@servicecenters.in"
  , working_hours :=
      [("monday", "09:00-18:00"), ("tuesday", "09:00-18:00"),
       ("wednesday", "09:00-18:00"), ("thursday", "09:00-18:00"),
       ("friday", "09:00-18:00"), ("saturday", "09:00-16:00"),
       ("sunday", "10:00-14:00")]
  , services := ["oil_change", "brake_service", "tire_replacement",
      "battery_check", "general_inspection", "ac_service",
      "engine_diagnostics", "paint_service", "denting_service"]
  , capacity := 12, manager := "Lakshmi Iyer" }

def hyderabadCenter : ServiceCenter :=
  { id := "hyderabad", name := "Hyderabad Service Center"
  , address := "Gachibowli, Hyderabad, Telangana 500032"
  , city := "Hyderabad", state := "Telangana", phone := "+91-40-5555-1234"
  , email := "hyderabad@servicecenters.in"
  , working_hours :=
      [("monday", "09:00-19:00"), ("tuesday", "09:00-19:00"),
       ("wednesday", "09:00-19:00"), ("thursday", "09:00-19:00"),
       ("friday", "09:00-19:00"), ("saturday", "09:00-17:00"),
       ("sunday", "closed")]
  , services := ["oil_change", "brake_service", "tire_replacement",
      "battery_check", "general_inspection", "ac_service",
      "engine_diagnostics", "wheel_alignment", "clutch_service"]
  , capacity := 16, manager := "Arjun Rao" }

/-- The static `service_centers` directory. -/
def service_centers : List (String × ServiceCenter) :=
  [("mumbai", mumbaiCenter), ("delhi", delhiCenter),
   ("bangalore", bangaloreCenter), ("chennai", chennaiCenter),
   ("hyderabad", hyderabadCenter)]

/-- A stored appointment record.  `created_at`/`cancelled_at` ISO strings
are modelled by the abstract instant `now : ℤ` of the mutating call; the
`cancelled_at` key only exists after a cancellation. -/
structure Appointment where
  id : String
  service_center_id : String
  service_center_name : String
  date : String
  time : String
  service_type : String
  customer_name : String
  customer_phone : String
  status : String
  created_at : ℤ
  cancelled_at : Option ℤ
deriving DecidableEq

/-- The `appointments_db` dictionary: stored appointments (in insertion
order, keyed by appointment id) and `next_appointment_id`. -/
structure SCState where
  appointments : List (String × Appointment)
  next_appointment_id : ℕ
deriving DecidableEq

/-- `_initialize_appointments_db`. -/
def initialSCState : SCState := ⟨[], 1000⟩

/-- The number of stored appointments for a center and date: length of
`[apt for apt in appointments.values() if apt["service_center_id"] == service_center_id and apt["date"] == date]`
(note: the status of the appointment is not inspected). -/
def appointmentsOn (st : SCState) (cid date : String) : ℕ :=
  (st.appointments.filter
    (fun p => p.2.service_center_id == cid && p.2.date == date)).length

/-- Result dictionary of `_check_availability`: either
`{"available": False, "error": msg}` or the successful payload. -/
inductive AvailResult where
  | err (msg : String)
  | ok (service_center date time service_type : String) (capacity_remaining : ℤ)
deriving DecidableEq

/-- `_check_availability`. -/
def check_availability (st : SCState)
    (service_center_id date time service_type : String) : AvailResult :=
  match alistFind service_centers service_center_id with
  | none => .err ("Service center '" ++ service_center_id ++ "' not found")
  | some center =>
    if !(center.services.contains service_type) then
      .err ("Service '" ++ service_type ++ "' not available at " ++ center.name)
    else
      match parseDate date with
      | none => .err "Invalid date or time format"
      | some (y, m, d) =>
        let day_name := dayOfWeekName y m d
        let wh := (alistFind center.working_hours day_name).getD "closed"
        if wh = "closed" then
          .err (center.name ++ " is closed on " ++ pyCapitalize day_name)
        else
          match pySplitOn wh '-' with
          | [sts, ets] =>
            match parseTime time, parseTime sts, parseTime ets with
            | some t, some t1, some t2 =>
              if t1 ≤ t ∧ t ≤ t2 then
                if center.capacity ≤ appointmentsOn st service_center_id date then
                  .err ("Service center is fully booked on " ++ date)
                else
                  .ok center.name date time service_type
                    ((center.capacity : ℤ) - (appointmentsOn st service_center_id date : ℤ))
              else
                .err ("Requested time " ++ time ++ " is outside working hours ("
                  ++ wh ++ ")")
            | _, _, _ => .err "Invalid date or time format"
          | _ => .err "Invalid date or time format"

/-- Result dictionary of `_book_appointment`. -/
inductive BookResult where
  | err (msg : String)
  | ok (appointment_id : String) (appointment : Appointment) (message : String)
deriving DecidableEq

/-- `_book_appointment`. -/
def book_appointment (st : SCState) (now : ℤ)
    (service_center_id date time service_type customer_name customer_phone :
      String) : BookResult × SCState :=
  match check_availability st service_center_id date time service_type with
  | .err e => (.err e, st)
  | .ok _ _ _ _ _ =>
    let appointment_id := "APP" ++ toString st.next_appointment_id
    let cname := ((alistFind service_centers service_center_id).map (·.name)).getD ""
    let apt : Appointment :=
      { id := appointment_id
      , service_center_id := service_center_id
      , service_center_name := cname
      , date := date, time := time, service_type := service_type
      , customer_name := customer_name, customer_phone := customer_phone
      , status := "confirmed", created_at := now, cancelled_at := none }
    (.ok appointment_id apt ("Appointment booked successfully at " ++ cname),
     { appointments := st.appointments ++ [(appointment_id, apt)]
     , next_appointment_id := st.next_appointment_id + 1 })

/-- Result dictionary of `_cancel_appointment`. -/
inductive CancelResult where
  | err (msg : String)
  | ok (message : String) (appointment : Appointment)
deriving DecidableEq

/-- `_cancel_appointment`. -/
def cancel_appointment (st : SCState) (now : ℤ) (appointment_id : String) :
    CancelResult × SCState :=
  match alistFind st.appointments appointment_id with
  | none => (.err ("Appointment '" ++ appointment_id ++ "' not found"), st)
  | some apt =>
    if apt.status = "cancelled" then
      (.err "Appointment is already cancelled", st)
    else
      (.ok ("Appointment " ++ appointment_id ++ " cancelled successfully")
        { apt with status := "cancelled", cancelled_at := some now },
       { st with appointments := st.appointments.map (fun p =>
          if p.1 == appointment_id then
            (p.1, { p.2 with status := "cancelled", cancelled_at := some now })
          else p) })

/-- Result dictionary of `_get_service_centers`. -/
inductive CentersResult where
  | err (msg : String)
  | okOne (center : ServiceCenter)
  | okAll (centers : List (String × ServiceCenter)) (total : ℕ)
deriving DecidableEq

/-- Python truthiness of an optional string argument (`None` and `""` are
falsy). -/
def truthyO : Option String → Bool
  | none => false
  | some s => !(s == "")

/-- `_get_service_centers`. -/
def get_service_centers (service_center_id : Option String) : CentersResult :=
  if truthyO service_center_id then
    match alistFind service_centers (service_center_id.getD "") with
    | none => .err ("Service center '" ++ service_center_id.getD "" ++ "' not found")
    | some c => .okOne c
  else .okAll service_centers service_centers.length

/-- Result dictionary of `_get_appointments`. -/
inductive ApptsResult where
  | err (msg : String)
  | okOne (appointment : Appointment)
  | okList (appointments : List Appointment) (total : ℕ)
deriving DecidableEq

/-- `_get_appointments`. -/
def get_appointments (st : SCState)
    (appointment_id service_center_id : Option String) : ApptsResult :=
  if truthyO appointment_id then
    match alistFind st.appointments (appointment_id.getD "") with
    | none => .err ("Appointment '" ++ appointment_id.getD "" ++ "' not found")
    | some apt => .okOne apt
  else
    let l0 := st.appointments.map (·.2)
    let l := if truthyO service_center_id then
        l0.filter (fun a => a.service_center_id == (service_center_id.getD ""))
      else l0
    .okList l l.length

/-- The JSON payload returned by `ServiceCenterAPI._run`. -/
inductive SCResult where
  | avail (r : AvailResult)
  | book (r : BookResult)
  | centers (r : CentersResult)
  | cancel (r : CancelResult)
  | appts (r : ApptsResult)
  | topErr (msg : String)
deriving DecidableEq

/-- The argument record of `ServiceCenterAPI._run`. -/
structure SCRequest where
  action : String
  service_center_id : Option String := none
  service_type : Option String := none
  date : Option String := none
  time : Option String := none
  customer_name : Option String := none
  customer_phone : Option String := none
  appointment_id : Option String := none

/-- `ServiceCenterAPI._run`: action dispatch, required-parameter truthiness
checks, and delegation. -/
def scRun (st : SCState) (now : ℤ) (req : SCRequest) : SCResult × SCState :=
  if req.action = "check_availability" then
    if truthyO req.service_center_id && truthyO req.date && truthyO req.time
        && truthyO req.service_type then
      (.avail (check_availability st (req.service_center_id.getD "")
        (req.date.getD "") (req.time.getD "") (req.service_type.getD "")), st)
    else
      (.topErr "Missing required parameters for availability check: service_center_id, date, time, service_type", st)
  else if req.action = "book_appointment" then
    if truthyO req.service_center_id && truthyO req.date && truthyO req.time
        && truthyO req.service_type && truthyO req.customer_name
        && truthyO req.customer_phone then
      let r := book_appointment st now (req.service_center_id.getD "")
        (req.date.getD "") (req.time.getD "") (req.service_type.getD "")
        (req.customer_name.getD "") (req.customer_phone.getD "")
      (.book r.1, r.2)
    else
      (.topErr "Missing required parameters for booking: service_center_id, date, time, service_type, customer_name, customer_phone", st)
  else if req.action = "get_service_centers" then
    (.centers (get_service_centers req.service_center_id), st)
  else if req.action = "cancel_appointment" then
    if truthyO req.appointment_id then
      let r := cancel_appointment st now (req.appointment_id.getD "")
      (.cancel r.1, r.2)
    else (.topErr "Missing required parameter: appointment_id", st)
  else if req.action = "get_appointments" then
    (.appts (get_appointments st req.appointment_id req.service_center_id), st)
  else
    (.topErr ("Unknown action: " ++ req.action
      ++ ". Valid actions are: check_availability, book_appointment, get_service_centers, cancel_appointment, get_appointments"), st)

/-! ### CustomerNotificationAPI -/

/-- A value stored in a customer's `preferences` dictionary: either one of
the boolean channel switches or one of the string settings. -/
inductive PVal where
  | b (v : Bool)
  | s (v : String)
deriving DecidableEq

/-- Python truthiness of a preference value. -/
def PVal.truthy : PVal → Bool
  | .b v => v
  | .s v => !(v == "")

structure Customer where
  id : String
  name : String
  email : String
  phone : String
  preferences : List (String × PVal)
deriving DecidableEq

/-- The static customer directory of `_initialize_customer_database`. -/
def customers : List Customer :=
  [ ⟨"VEH001", "John Smith", "john.smith@email.com", "+1234567890",
      [("email", .b true), ("sms", .b true), ("app_push", .b true),
       ("preferred_time", .s "09:00-17:00"), ("language", .s "en")]⟩
  , ⟨"VEH002", "Sarah Johnson", "sarah.johnson@email.com", "+1234567891",
      [("email", .b true), ("sms", .b false), ("app_push", .b true),
       ("preferred_time", .s "10:00-18:00"), ("language", .s "en")]⟩
  , ⟨"VEH003", "Mike Davis", "mike.davis@email.com", "+1234567892",
      [("email", .b false), ("sms", .b true), ("app_push", .b true),
       ("preferred_time", .s "08:00-16:00"), ("language", .s "en")]⟩
  , ⟨"VEH004", "Emily Wilson", "emily.wilson@email.com", "+1234567893",
      [("email", .b true), ("sms", .b true), ("app_push", .b false),
       ("preferred_time", .s "11:00-19:00"), ("language", .s "es")]⟩
  , ⟨"VEH005", "Robert Brown", "robert.brown@email.com", "+1234567894",
      [("email", .b true), ("sms", .b true), ("app_push", .b true),
       ("preferred_time", .s "07:00-15:00"), ("language", .s "en")]⟩
  , ⟨"VEH006", "Lisa Garcia", "lisa.garcia@email.com", "+1234567895",
      [("email", .b true), ("sms", .b false), ("app_push", .b true),
       ("preferred_time", .s "12:00-20:00"), ("language", .s "es")]⟩
  , ⟨"VEH007", "David Miller", "david.miller@email.com", "+1234567896",
      [("email", .b false), ("sms", .b true), ("app_push", .b true),
       ("preferred_time", .s "06:00-14:00"), ("language", .s "en")]⟩
  , ⟨"VEH008", "Jennifer Taylor", "jennifer.taylor@email.com", "+1234567897",
      [("email", .b true), ("sms", .b true), ("app_push", .b true),
       ("preferred_time", .s "13:00-21:00"), ("language", .s "fr")]⟩
  , ⟨"VEH009", "Christopher Anderson", "chris.anderson@email.com", "+1234567898",
      [("email", .b true), ("sms", .b false), ("app_push", .b false),
       ("preferred_time", .s "09:00-17:00"), ("language", .s "en")]⟩
  , ⟨"VEH010", "Amanda White", "amanda.white@email.com", "+1234567899",
      [("email", .b true), ("sms", .b true), ("app_push", .b true),
       ("preferred_time", .s "14:00-22:00"), ("language", .s "de")]⟩ ]

/-- Lookup in the `customer_db` dictionary (keyed by customer id). -/
def findCustomer (cid : String) : Option Customer :=
  customers.find? (fun c => c.id == cid)

/-- `preferences.get(notification_type, False)`. -/
def prefGet (c : Customer) (k : String) : PVal :=
  (alistFind c.preferences k).getD (.b false)

/-- A record appended to the notification histories. -/
structure NotifRecord where
  notification_id : String
  customer_id : String
  ntype : String
  message : String
  subject : Option String
  status : String
  timestamp : ℤ
  recipient_email : Option String
  recipient_phone : Option String
  recipient_device : Option String
  status_updated : Option ℤ
deriving DecidableEq

/-- The mutable state of `CustomerNotificationAPI`: the global
`notification_history` list and each customer's `notification_history`. -/
structure NState where
  notification_history : List NotifRecord
  customer_history : List (String × List NotifRecord)
deriving DecidableEq

def initialNState : NState := ⟨[], customers.map (fun c => (c.id, []))⟩

/-- Result dictionary of `_send_notification`. -/
inductive SendResult where
  | err (msg : String)
  | ok (notification_id customer_id ntype status : String) (timestamp : ℤ)
      (message : String)
deriving DecidableEq

/-- Append a record to one customer's history. -/
def appendHist (l : List (String × List NotifRecord)) (cid : String)
    (n : NotifRecord) : List (String × List NotifRecord) :=
  l.map (fun p => if p.1 == cid then (p.1, p.2 ++ [n]) else p)

/-- `_send_notification`. -/
def send_notification (st : NState) (now : ℤ)
    (customer_id notification_type message : String) (subject : Option String) :
    SendResult × NState :=
  match findCustomer customer_id with
  | none => (.err ("Customer " ++ customer_id ++ " not found"), st)
  | some c =>
    if !(prefGet c notification_type).truthy then
      (.err ("Customer " ++ customer_id ++ " has disabled " ++ notification_type
        ++ " notifications"), st)
    else
      let nid := "NOTIF_" ++ customer_id ++ "_" ++ toString now
      let n : NotifRecord :=
        { notification_id := nid, customer_id := customer_id
        , ntype := notification_type, message := message
        , subject := if notification_type = "email" then subject else none
        , status := "sent", timestamp := now
        , recipient_email := if notification_type = "email" then some c.email else none
        , recipient_phone := if notification_type = "sms" then some c.phone else none
        , recipient_device := if notification_type = "app_push" then some "app" else none
        , status_updated := none }
      (.ok nid customer_id notification_type "sent" now
        "Notification sent successfully",
       { notification_history := st.notification_history ++ [n]
       , customer_history := appendHist st.customer_history customer_id n })

/-- Result dictionary of `_get_customer_preferences`. -/
inductive PrefResult where
  | err (msg : String)
  | ok (customer_id customer_name email phone : String)
      (preferences : List (String × PVal)) (total_notifications : ℕ)
deriving DecidableEq

/-- `_get_customer_preferences`. -/
def get_customer_preferences (st : NState) (customer_id : String) : PrefResult :=
  match findCustomer customer_id with
  | none => .err ("Customer " ++ customer_id ++ " not found")
  | some c =>
    .ok customer_id c.name c.email c.phone c.preferences
      ((alistFind st.customer_history customer_id).getD []).length

/-- Result dictionary of `_update_notification_status`. -/
inductive UpdResult where
  | err (msg : String)
  | ok (notification_id old_status new_status : String) (updated_at : ℤ)
      (message : String)
deriving DecidableEq

/-- Update the first record with the given id, as the `for`/`break` loops of
`_update_notification_status` do. -/
def updateFirst (nid status : String) (now : ℤ) :
    List NotifRecord → List NotifRecord
  | [] => []
  | n :: rest =>
    if n.notification_id == nid then
      { n with status := status, status_updated := some now } :: rest
    else n :: updateFirst nid status now rest

/-- `_update_notification_status`. -/
def update_notification_status (st : NState) (now : ℤ)
    (notification_id status : String) : UpdResult × NState :=
  if !(["pending", "sent", "delivered", "failed", "read"].contains status) then
    (.err "Invalid status. Must be one of: pending, sent, delivered, failed, read", st)
  else
    match st.notification_history.find?
        (fun n => n.notification_id == notification_id) with
    | none => (.err ("Notification " ++ notification_id ++ " not found"), st)
    | some n =>
      (.ok notification_id n.status status now
        "Notification status updated successfully",
       { notification_history :=
           updateFirst notification_id status now st.notification_history
       , customer_history := st.customer_history.map (fun p =>
           if p.1 == n.customer_id then
             (p.1, updateFirst notification_id status now p.2)
           else p) })

/-- The JSON payload returned by `CustomerNotificationAPI._run`. -/
inductive NotifResult where
  | send (r : SendResult)
  | prefs (r : PrefResult)
  | upd (r : UpdResult)
  | topErr (msg : String)
deriving DecidableEq

/-- The argument record of `CustomerNotificationAPI._run`. -/
structure NotifRequest where
  action : String
  customer_id : Option String := none
  notification_type : Option String := none
  message : Option String := none
  subject : Option String := none
  notification_id : Option String := none
  status : Option String := none

/-- `CustomerNotificationAPI._run`. -/
def notifRun (st : NState) (now : ℤ) (req : NotifRequest) :
    NotifResult × NState :=
  if req.action = "send_notification" then
    if truthyO req.customer_id && truthyO req.notification_type
        && truthyO req.message then
      if ["email", "sms", "app_push"].contains (req.notification_type.getD "") then
        let r := send_notification st now (req.customer_id.getD "")
          (req.notification_type.getD "") (req.message.getD "") req.subject
        (.send r.1, r.2)
      else (.topErr "Invalid notification_type. Must be: email, sms, or app_push", st)
    else
      (.topErr "Missing required parameters: customer_id, notification_type, and message are required", st)
  else if req.action = "get_customer_preferences" then
    if truthyO req.customer_id then
      (.prefs (get_customer_preferences st (req.customer_id.getD "")), st)
    else (.topErr "Missing required parameter: customer_id", st)
  else if req.action = "update_notification_status" then
    if truthyO req.notification_id && truthyO req.status then
      let r := update_notification_status st now (req.notification_id.getD "")
        (req.status.getD "")
      (.upd r.1, r.2)
    else
      (.topErr "Missing required parameters: notification_id and status are required", st)
  else
    (.topErr ("Invalid action: " ++ req.action
      ++ ". Valid actions: send_notification, get_customer_preferences, update_notification_status"), st)

/-! ### JSON shape of the returned payloads -/

/-- JSON values, used to state the shape of the dictionaries the tools
serialize with `json.dumps`. -/
inductive Json where
  | str (s : String)
  | num (q : ℚ)
  | bool (b : Bool)
  | null
  | arr (xs : List Json)
  | obj (fields : List (String × Json))

/-- Value of a key in a JSON object. -/
def lookupField : Json → String → Option Json
  | .obj fs, k => (fs.find? (fun p => p.1 == k)).map (·.2)
  | _, _ => none

/-- The error-handling contract of the spec: the payload carries an `error`
message string, or a `success` boolean, or an `available` boolean. -/
def structuredPayload (j : Json) : Bool :=
  (match lookupField j "error" with | some (.str _) => true | _ => false)
  || (match lookupField j "success" with | some (.bool _) => true | _ => false)
  || (match lookupField j "available" with | some (.bool _) => true | _ => false)

def optStrJson : Option String → Json
  | none => .null
  | some s => .str s

/-- The `telematics_data` dictionary serialized by
`VehicleTelematicsAPI._run` (ISO-format instants are abstracted to the
integer instants of the snapshot). -/
def Snapshot.toJson (s : Snapshot) : Json :=
  .obj [("vehicle_id", .str s.vehicle_id), ("timestamp", .num s.timestamp),
    ("engine_data", .obj [("rpm", .num s.rpm),
      ("temperature_f", .num s.temperature_f),
      ("oil_pressure_psi", .num s.oil_pressure_psi)]),
    ("brake_system", .obj [("front_pad_thickness_mm", .num s.front_pad_thickness_mm),
      ("rear_pad_thickness_mm", .num s.rear_pad_thickness_mm)]),
    ("electrical_system", .obj [("battery_voltage", .num s.battery_voltage)]),
    ("transmission", .obj [("temperature_f", .num s.transmission_temperature_f)]),
    ("cooling_system", .obj [("coolant_level_percent", .num s.coolant_level_percent)]),
    ("tire_pressure_psi", .obj [("front_left", .num (s.tire_pressure_psi.getD 0 0)),
      ("front_right", .num (s.tire_pressure_psi.getD 1 0)),
      ("rear_left", .num (s.tire_pressure_psi.getD 2 0)),
      ("rear_right", .num (s.tire_pressure_psi.getD 3 0))]),
    ("vehicle_status", .obj [("odometer_miles", .num s.odometer_miles),
      ("fuel_level_percent", .num s.fuel_level_percent)]),
    ("gps_location", .obj [("latitude", .num s.latitude),
      ("longitude", .num s.longitude)]),
    ("diagnostic_codes", .arr (s.diagnostic_codes.map .str)),
    ("maintenance_info", .obj [("last_service_date", .num s.last_service_date),
      ("maintenance_due", .bool s.maintenance_due),
      ("warning_level", .str s.warning_level)]),
    ("usage_patterns", .obj [("daily_average_miles", .num s.daily_average_miles),
      ("driving_style_score", .num s.driving_style_score),
      ("driving_style_description", .str s.driving_style_description)]),
    ("alerts", .arr (s.alerts.map .str))]

/-- The returned value of `VehicleTelematicsAPI._run` as a JSON value: a
successful run serializes the snapshot dictionary; the except clause
returns a bare string, which is a JSON string, not an object. -/
def TelResult.toJson : TelResult → Json
  | .payload s => s.toJson
  | .errString m => .str m

def Appointment.toJson (a : Appointment) : Json :=
  .obj ([("id", .str a.id), ("service_center_id", .str a.service_center_id),
    ("service_center_name", .str a.service_center_name), ("date", .str a.date),
    ("time", .str a.time), ("service_type", .str a.service_type),
    ("customer_name", .str a.customer_name),
    ("customer_phone", .str a.customer_phone),
    ("status", .str a.status), ("created_at", .num a.created_at)]
    ++ (match a.cancelled_at with
        | none => []
        | some t => [("cancelled_at", .num t)]))

def ServiceCenter.toJson (c : ServiceCenter) : Json :=
  .obj [("id", .str c.id), ("name", .str c.name), ("address", .str c.address),
    ("city", .str c.city), ("state", .str c.state), ("phone", .str c.phone),
    ("email", .str c.email),
    ("working_hours", .obj (c.working_hours.map (fun p => (p.1, .str p.2)))),
    ("services", .arr (c.services.map .str)),
    ("capacity", .num c.capacity), ("manager", .str c.manager)]

def AvailResult.toJson : AvailResult → Json
  | .err m => .obj [("available", .bool false), ("error", .str m)]
  | .ok sc d t sv rem => .obj [("available", .bool true),
      ("service_center", .str sc), ("date", .str d), ("time", .str t),
      ("service_type", .str sv), ("capacity_remaining", .num rem)]

def BookResult.toJson : BookResult → Json
  | .err m => .obj [("success", .bool false), ("error", .str m)]
  | .ok aid apt msg => .obj [("success", .bool true),
      ("appointment_id", .str aid), ("appointment", apt.toJson),
      ("message", .str msg)]

def CentersResult.toJson : CentersResult → Json
  | .err m => .obj [("success", .bool false), ("error", .str m)]
  | .okOne c => .obj [("success", .bool true), ("service_center", c.toJson)]
  | .okAll cs total => .obj [("success", .bool true),
      ("service_centers", .obj (cs.map (fun p => (p.1, p.2.toJson)))),
      ("total_centers", .num total)]

def CancelResult.toJson : CancelResult → Json
  | .err m => .obj [("success", .bool false), ("error", .str m)]
  | .ok msg apt => .obj [("success", .bool true), ("message", .str msg),
      ("appointment", apt.toJson)]

def ApptsResult.toJson : ApptsResult → Json
  | .err m => .obj [("success", .bool false), ("error", .str m)]
  | .okOne apt => .obj [("success", .bool true), ("appointment", apt.toJson)]
  | .okList l total => .obj [("success", .bool true),
      ("appointments", .arr (l.map Appointment.toJson)),
      ("total_appointments", .num total)]

def SCResult.toJson : SCResult → Json
  | .avail r => r.toJson
  | .book r => r.toJson
  | .centers r => r.toJson
  | .cancel r => r.toJson
  | .appts r => r.toJson
  | .topErr m => .obj [("error", .str m)]

def PVal.toJson : PVal → Json
  | .b v => .bool v
  | .s v => .str v

def SendResult.toJson : SendResult → Json
  | .err m => .obj [("success", .bool false), ("error", .str m),
      ("notification_id", .null)]
  | .ok nid cid t status ts msg => .obj [("success", .bool true),
      ("notification_id", .str nid), ("customer_id", .str cid),
      ("type", .str t), ("status", .str status), ("timestamp", .num ts),
      ("message", .str msg)]

def PrefResult.toJson : PrefResult → Json
  | .err m => .obj [("success", .bool false), ("error", .str m)]
  | .ok cid cname cemail cphone prefs total => .obj [("success", .bool true),
      ("customer_id", .str cid), ("customer_name", .str cname),
      ("contact_info", .obj [("email", .str cemail), ("phone", .str cphone)]),
      ("preferences", .obj (prefs.map (fun p => (p.1, p.2.toJson)))),
      ("total_notifications", .num total)]

def UpdResult.toJson : UpdResult → Json
  | .err m => .obj [("success", .bool false), ("error", .str m)]
  | .ok nid os ns ts msg => .obj [("success", .bool true),
      ("notification_id", .str nid), ("old_status", .str os),
      ("new_status", .str ns), ("updated_at", .num ts), ("message", .str msg)]

def NotifResult.toJson : NotifResult → Json
  | .send r => r.toJson
  | .prefs r => r.toJson
  | .upd r => r.toJson
  | .topErr m => .obj [("success", .bool false), ("error", .str m)]

/-! ### Concrete states used by counterexamples and witnesses -/

/-- The `capacity_remaining` field of an availability payload, when present. -/
def AvailResult.remaining : AvailResult → Option ℤ
  | .ok _ _ _ _ r => some r
  | .err _ => none

/-- The `success` field of a booking payload. -/
def BookResult.success : BookResult → Bool
  | .ok _ _ _ => true
  | .err _ => false

/-- The `success` field of a cancellation payload. -/
def CancelResult.success : CancelResult → Bool
  | .ok _ _ => true
  | .err _ => false

/-- A confirmed oil-change appointment at Mumbai on 2024-01-15. -/
def mkMumbaiApt (aid : String) : Appointment :=
  { id := aid, service_center_id := "mumbai"
  , service_center_name := "Mumbai Service Center"
  , date := "2024-01-15", time := "10:00", service_type := "oil_change"
  , customer_name := "C", customer_phone := "9"
  , status := "confirmed", created_at := 0, cancelled_at := none }

/-- A state holding 15 confirmed Mumbai appointments on 2024-01-15 —
Mumbai's full capacity. -/
def stFullMumbai : SCState :=
  ⟨(List.range 15).map (fun i =>
      ("APP" ++ toString (1000 + i), mkMumbaiApt ("APP" ++ toString (1000 + i)))),
   1015⟩

/-- An already-cancelled appointment record. -/
def cancelledApt : Appointment :=
  { mkMumbaiApt "APP1000" with status := "cancelled", cancelled_at := some 0 }

/-- A state holding a single already-cancelled appointment. -/
def stC4 : SCState := ⟨[("APP1000", cancelledApt)], 1001⟩

/-- The VEH002 customer record (sms disabled). -/
def cust002 : Customer :=
  ⟨"VEH002", "Sarah Johnson", "sarah.johnson@email.com", "+1234567891",
    [("email", .b true), ("sms", .b false), ("app_push", .b true),
     ("preferred_time", .s "10:00-18:00"), ("language", .s "en")]⟩

/-! ## Helper lemmas -/

theorem halfEvenRound_le_floor_add_one (x : ℚ) : halfEvenRound x ≤ ⌊x⌋ + 1 := by
  unfold halfEvenRound
  split_ifs <;> omega

theorem floor_le_halfEvenRound (x : ℚ) : ⌊x⌋ ≤ halfEvenRound x := by
  unfold halfEvenRound
  split_ifs <;> omega

theorem halfEvenRound_mono {x y : ℚ} (hxy : x ≤ y) :
    halfEvenRound x ≤ halfEvenRound y := by
  rcases lt_or_le ⌊x⌋ ⌊y⌋ with hf | hf
  · have h1 := halfEvenRound_le_floor_add_one x
    have h2 := floor_le_halfEvenRound y
    omega
  · have hfe : ⌊x⌋ = ⌊y⌋ := le_antisymm (Int.floor_le_floor hxy) hf
    unfold halfEvenRound
    rw [hfe]
    have hfr : x - (⌊y⌋ : ℚ) ≤ y - (⌊y⌋ : ℚ) := by linarith
    split_ifs <;> first | omega | linarith

theorem pyRound_mono (k : ℕ) {x y : ℚ} (h : x ≤ y) :
    pyRound k x ≤ pyRound k y := by
  unfold pyRound
  have h10 : (0 : ℚ) < 10 ^ k := by positivity
  have hm : x * 10 ^ k ≤ y * 10 ^ k := mul_le_mul_of_nonneg_right h h10.le
  have hr : ((halfEvenRound (x * 10 ^ k) : ℚ)) ≤ (halfEvenRound (y * 10 ^ k) : ℚ) :=
    Int.cast_le.2 (halfEvenRound_mono hm)
  gcongr

theorem pyRound3_095 : pyRound 3 (0.95 : ℚ) = 0.95 := by
  unfold pyRound halfEvenRound
  norm_num [Int.floor_eq_iff]

/-! ## Claims C5 and C6 -/

/-- Claim C5: for a fixed component of the prediction table and fixed usage
pattern and climate, the `failure_probability` computed by
`_predict_failures` is monotonically non-decreasing in the vehicle's
mileage and in its age. -/
theorem claim_C5 (c : Component) (hc : c ∈ components) (usage climate : String)
    (a a2 m m2 : ℤ) (ha : a ≤ a2) (hm : m ≤ m2) :
    failure_probability c a m usage climate
      ≤ failure_probability c a2 m2 usage climate := by
  have hfac : 0 ≤ c.age_factor ∧ 0 ≤ c.mileage_factor := by
    simp only [components, List.mem_cons, List.not_mem_nil, or_false] at hc
    rcases hc with rfl | rfl | rfl | rfl | rfl | rfl | rfl <;> norm_num
  unfold failure_probability
  apply pyRound_mono
  unfold totalProbability
  apply min_le_min _ le_rfl
  have h1 : c.age_factor * (a : ℚ) ≤ c.age_factor * (a2 : ℚ) :=
    mul_le_mul_of_nonneg_left (by exact_mod_cast ha) hfac.1
  have h2 : c.mileage_factor * (m : ℚ) ≤ c.mileage_factor * (m2 : ℚ) :=
    mul_le_mul_of_nonneg_left (by exact_mod_cast hm) hfac.2
  linarith

theorem claim_C5_witness :
    (brakePadsC ∈ components ∧ (1 : ℤ) ≤ 2 ∧ (18000 : ℤ) ≤ 20000) ∧
    failure_probability brakePadsC 1 18000 "city" "hot"
      ≤ failure_probability brakePadsC 2 20000 "city" "hot" :=
  ⟨⟨by simp [components, brakePadsC], by norm_num, by norm_num⟩,
   claim_C5 brakePadsC (by simp [components, brakePadsC]) "city" "hot"
     1 2 18000 20000 (by norm_num) (by norm_num)⟩

/-- Claim C6, counterexample: for the Brake Pads component and the VEH001
profile with (reachable) mileage 18001 and age 3, the returned
`failure_probability` is `round(0.294008, 3) = 0.294`, not the uncapped
linear sum `0.294008` the claim asserts. -/
theorem claim_C6_counterexample :
    components[0]? = some brakePadsC ∧
    failure_probability brakePadsC 3 18001 "highway" "hot" = 0.294 ∧
    specLinearCap brakePadsC 3 18001 "highway" "hot" = 0.294008 ∧
    failure_probability brakePadsC 3 18001 "highway" "hot"
      ≠ specLinearCap brakePadsC 3 18001 "highway" "hot" := by
  refine ⟨rfl, ?_, ?_, ?_⟩ <;>
    norm_num [failure_probability, totalProbability, specLinearCap, brakePadsC,
      pyRound, halfEvenRound, usageMultiplier, climateMultiplier, min_def,
      Int.floor_eq_iff]

/-- Claim C6 as amended: the `failure_probability` returned by
`_predict_failures` equals the claimed capped linear sum rounded to three
decimal places (Python `round`), and in particular is at most 0.95. -/
theorem claim_C6_amended (c : Component) (vehicle_age mileage : ℤ)
    (usage climate : String) :
    failure_probability c vehicle_age mileage usage climate
        = pyRound 3 (specLinearCap c vehicle_age mileage usage climate)
      ∧ failure_probability c vehicle_age mileage usage climate ≤ 0.95 := by
  constructor
  · unfold failure_probability totalProbability specLinearCap
    rw [min_comm]
  · have h1 : totalProbability c vehicle_age mileage usage climate ≤ 0.95 :=
      min_le_right _ _
    calc failure_probability c vehicle_age mileage usage climate
        ≤ pyRound 3 0.95 := pyRound_mono 3 h1
      _ = 0.95 := pyRound3_095

/-! ## Claims C7, C8, C9 -/

/-- Claim C7: two runs of the telematics generator with the same vehicle id
(hence the same MD5-derived seed `hash vehicle_id`, since the digest is a
fixed pure function) produce identical seed-derived snapshot values —
engine, brakes, battery, tires, GPS, odometer, DTCs, alerts and the rest —
whatever the clock reads at each run.  Only `timestamp` and
`last_service_date` depend on the run's `now`. -/
theorem claim_C7 (hash : String → ℕ) (now1 now2 : ℤ) (vehicle_id : String) :
    (telematics_run hash now1 vehicle_id).seedDerived
      = (telematics_run hash now2 vehicle_id).seedDerived := rfl

/-- Claim C8, counterexample: `VEH012` has an all-digit, even suffix, yet
`_get_maintenance_status` reports no warnings and no maintenance due,
because the source tests membership in `[2, 4, 6, 8, 10]`, not evenness. -/
theorem claim_C8_counterexample :
    pyIsDigit (pyLast3 "VEH012") = true ∧
    pyVehicleNum "VEH012" = 12 ∧
    pyVehicleNum "VEH012" % 2 = 0 ∧
    (get_maintenance_status 0 (pyVehicleNum "VEH012")).has_warnings = false ∧
    (get_maintenance_status 0 (pyVehicleNum "VEH012")).maintenance_due = false := by
  decide

/-- Claim C8 as amended: for every vehicle id whose last three characters
are digits, the maintenance status follows the hardcoded fleet rule on the
numeric suffix: the even numbers 2, 4, 6, 8, 10 of the ten-vehicle fleet
have issues (`has_warnings` and `maintenance_due` both true), and every
other number — all odd numbers, and even numbers outside the fleet — has
`maintenance_due` false. -/
theorem claim_C8_amended (vehicle_id : String) (seed : ℕ)
    (h : pyIsDigit (pyLast3 vehicle_id) = true) :
    (pyVehicleNum vehicle_id ∈ [2, 4, 6, 8, 10] →
      (get_maintenance_status seed (pyVehicleNum vehicle_id)).has_warnings = true ∧
      (get_maintenance_status seed (pyVehicleNum vehicle_id)).maintenance_due = true)
    ∧ (pyVehicleNum vehicle_id ∉ [2, 4, 6, 8, 10] →
      (get_maintenance_status seed (pyVehicleNum vehicle_id)).maintenance_due = false) := by
  constructor
  · intro hmem
    simp [get_maintenance_status, hmem]
  · intro hmem
    simp [get_maintenance_status, hmem]

theorem claim_C8_amended_witness :
    pyIsDigit (pyLast3 "VEH004") = true ∧
    ((pyVehicleNum "VEH004" ∈ [2, 4, 6, 8, 10] →
      (get_maintenance_status 0 (pyVehicleNum "VEH004")).has_warnings = true ∧
      (get_maintenance_status 0 (pyVehicleNum "VEH004")).maintenance_due = true)
    ∧ (pyVehicleNum "VEH004" ∉ [2, 4, 6, 8, 10] →
      (get_maintenance_status 0 (pyVehicleNum "VEH004")).maintenance_due = false)) :=
  ⟨by decide, claim_C8_amended "VEH004" 0 (by decide)⟩

/-- Claim C9: a vehicle id of the shape `VEH` + digits that is not one of
`VEH001`-`VEH010` passes the validation of `MaintenanceHistoryAPI._run`
and `_generate_vehicle_data` silently falls back to the `VEH001` record,
so every action is computed on the VEH001 profile (for the same call-time
random draw). -/
theorem claim_C9 (vehicle_id : String) (draw : ℕ → ℤ)
    (hpre : pyStartsWith vehicle_id "VEH" = true)
    (hdig : pyIsDigit (pyDrop vehicle_id 3) = true)
    (hout : vehicle_id ∉ fleetIds) :
    mhValidId vehicle_id = true ∧
    generate_vehicle_data draw vehicle_id = generate_vehicle_data draw "VEH001" := by
  constructor
  · simp [mhValidId, hpre, hdig]
  · unfold generate_vehicle_data
    have hnone : (List.range' 1 10).find?
        (fun i => "VEH" ++ zfill3 i == vehicle_id) = none := by
      rw [List.find?_eq_none]
      intro i hi
      simp only [beq_iff_eq]
      intro heq
      exact hout (heq ▸ List.mem_map_of_mem (fun j => "VEH" ++ zfill3 j) hi)
    have hone : (List.range' 1 10).find?
        (fun i => "VEH" ++ zfill3 i == "VEH001") = some 1 := by decide
    rw [hnone, hone]

theorem claim_C9_witness :
    (pyStartsWith "VEH011" "VEH" = true ∧
      pyIsDigit (pyDrop "VEH011" 3) = true ∧ "VEH011" ∉ fleetIds) ∧
    (mhValidId "VEH011" = true ∧
      generate_vehicle_data (fun _ => 0) "VEH011"
        = generate_vehicle_data (fun _ => 0) "VEH001") :=
  ⟨⟨by decide, by decide, by decide⟩,
   claim_C9 "VEH011" (fun _ => 0) (by decide) (by decide) (by decide)⟩

/-! ## Claims C1, C3, C4 (service center) -/

theorem length_filter_map_of_pres {α : Type} (f : α → α) (p : α → Bool)
    (hpres : ∀ a, p (f a) = p a) (l : List α) :
    ((l.map f).filter p).length = (l.filter p).length := by
  induction l with
  | nil => rfl
  | cons hd tl ih =>
    simp only [List.map_cons, List.filter_cons, hpres hd]
    cases hp : p hd <;> simp [hp, ih]

theorem appointmentsOn_cancel (st : SCState) (now : ℤ) (aid cid date : String) :
    appointmentsOn (cancel_appointment st now aid).2 cid date
      = appointmentsOn st cid date := by
  unfold cancel_appointment
  cases halist : alistFind st.appointments aid with
  | none => rfl
  | some apt =>
    by_cases hs : apt.status = "cancelled"
    · simp [hs]
    · simp only [hs, if_false]
      unfold appointmentsOn
      apply length_filter_map_of_pres
      intro a
      by_cases h : a.1 == aid <;> simp [h]

/-- Claim C1, counterexample: book the single appointment APP1000 at Mumbai
for 2024-01-15, cancel it successfully, and re-check availability — the
remaining capacity is 14 before the cancellation and still 14 (not 15)
after it.  Cancelled appointments keep counting against the daily
capacity, so cancelling does not free a slot. -/
theorem claim_C1_counterexample :
    let st1 := (book_appointment initialSCState 0 "mumbai" "2024-01-15"
      "10:00" "oil_change" "Asha Rao" "9820000000").2
    let st2 := (cancel_appointment st1 0 "APP1000").2
    (book_appointment initialSCState 0 "mumbai" "2024-01-15" "10:00"
        "oil_change" "Asha Rao" "9820000000").1.success = true
    ∧ (cancel_appointment st1 0 "APP1000").1.success = true
    ∧ (check_availability st1 "mumbai" "2024-01-15" "10:00" "oil_change").remaining
        = some 14
    ∧ (check_availability st2 "mumbai" "2024-01-15" "10:00" "oil_change").remaining
        = some 14
    ∧ (check_availability st2 "mumbai" "2024-01-15" "10:00" "oil_change").remaining
        ≠ some (14 + 1) := by
  decide

/-- Claim C1 as amended: cancelling an appointment leaves every subsequent
`check_availability` result unchanged — `_check_availability` counts every
stored appointment for the center and date regardless of its status, so a
cancellation does not free a slot. -/
theorem claim_C1_amended (st : SCState) (now : ℤ)
    (appointment_id service_center_id date time service_type : String) :
    check_availability (cancel_appointment st now appointment_id).2
        service_center_id date time service_type
      = check_availability st service_center_id date time service_type := by
  have hcount := appointmentsOn_cancel st now appointment_id service_center_id date
  unfold check_availability
  rw [hcount]

/-- Claim C3: whenever the requested center exists, offers the service, is
open at the requested date and time, and already stores at least
`capacity` many appointments for that center and date, `_book_appointment`
returns `success: False` with the fully-booked error and leaves the
appointment store unchanged. -/
theorem claim_C3 (st : SCState) (now : ℤ)
    (service_center_id date time service_type customer_name customer_phone :
      String)
    (c : ServiceCenter) (hc : alistFind service_centers service_center_id = some c)
    (hs : c.services.contains service_type = true)
    (y m d : ℕ) (hdate : parseDate date = some (y, m, d))
    (wh : String)
    (hwh : (alistFind c.working_hours (dayOfWeekName y m d)).getD "closed" = wh)
    (hclosed : ¬ wh = "closed")
    (sts ets : String) (hsplit : pySplitOn wh '-' = [sts, ets])
    (t t1 t2 : ℕ) (ht : parseTime time = some t)
    (ht1 : parseTime sts = some t1) (ht2 : parseTime ets = some t2)
    (hin : t1 ≤ t ∧ t ≤ t2)
    (hcap : c.capacity ≤ appointmentsOn st service_center_id date) :
    book_appointment st now service_center_id date time service_type
        customer_name customer_phone
      = (.err ("Service center is fully booked on " ++ date), st) := by
  have havail : check_availability st service_center_id date time service_type
      = .err ("Service center is fully booked on " ++ date) := by
    unfold check_availability
    rw [hc]
    simp only [hs, Bool.not_true, if_false, hdate, hwh, hsplit, ht, ht1, ht2]
    rw [if_neg hclosed, if_pos hin, if_pos hcap]
    simp
  unfold book_appointment
  rw [havail]

theorem claim_C3_witness :
    (alistFind service_centers "mumbai" = some mumbaiCenter ∧
      mumbaiCenter.services.contains "oil_change" = true ∧
      parseDate "2024-01-15" = some (2024, 1, 15) ∧
      mumbaiCenter.capacity ≤ appointmentsOn stFullMumbai "mumbai" "2024-01-15") ∧
    book_appointment stFullMumbai 0 "mumbai" "2024-01-15" "10:00" "oil_change"
        "Asha Rao" "9820000000"
      = (.err ("Service center is fully booked on " ++ "2024-01-15"), stFullMumbai) :=
  ⟨⟨by decide, by decide, by decide, by decide⟩,
   claim_C3 stFullMumbai 0 "mumbai" "2024-01-15" "10:00" "oil_change"
     "Asha Rao" "9820000000" mumbaiCenter (by decide) (by decide)
     2024 1 15 (by decide) "09:00-18:00" (by decide) (by decide)
     "09:00" "18:00" (by decide) 600 540 1080 (by decide) (by decide) (by decide)
     ⟨by decide, by decide⟩ (by decide)⟩

/-- Claim C4: cancelling an already-cancelled appointment fails with the
"already cancelled" error and leaves the store unchanged, and cancelling
an appointment id that is not in the store fails with the "not found"
error, also leaving the store unchanged. -/
theorem claim_C4 (st : SCState) (now : ℤ) (appointment_id : String) :
    (∀ apt, alistFind st.appointments appointment_id = some apt →
      apt.status = "cancelled" →
      cancel_appointment st now appointment_id
        = (.err "Appointment is already cancelled", st))
    ∧ (alistFind st.appointments appointment_id = none →
      cancel_appointment st now appointment_id
        = (.err ("Appointment '" ++ appointment_id ++ "' not found"), st)) := by
  constructor
  · intro apt hfind hst
    unfold cancel_appointment
    rw [hfind]
    simp [hst]
  · intro hfind
    unfold cancel_appointment
    rw [hfind]

theorem claim_C4_witness :
    (alistFind stC4.appointments "APP1000" = some cancelledApt ∧
      cancelledApt.status = "cancelled" ∧
      alistFind stC4.appointments "APP9999" = none) ∧
    (cancel_appointment stC4 0 "APP1000"
        = (.err "Appointment is already cancelled", stC4) ∧
      cancel_appointment stC4 0 "APP9999"
        = (.err ("Appointment '" ++ "APP9999" ++ "' not found"), stC4)) :=
  ⟨⟨by decide, by decide, by decide⟩,
   ⟨(claim_C4 stC4 0 "APP1000").1 cancelledApt (by decide) (by decide),
    (claim_C4 stC4 0 "APP9999").2 (by decide)⟩⟩

/-! ## Claim C2 (error handling shape) -/

theorem scResult_structured (r : SCResult) : structuredPayload r.toJson = true := by
  cases r with
  | avail r => cases r <;> rfl
  | book r => cases r <;> rfl
  | centers r => cases r <;> rfl
  | cancel r => cases r <;> rfl
  | appts r => cases r <;> rfl
  | topErr m => rfl

theorem notifResult_structured (r : NotifResult) :
    structuredPayload r.toJson = true := by
  cases r with
  | send r => cases r <;> rfl
  | prefs r => cases r <;> rfl
  | upd r => cases r <;> rfl
  | topErr m => rfl

/-- Claim C2, counterexample: the suffix of `"VEH²²²"` passes Python's
`str.isdigit()` (superscript digits have `Numeric_Type=Digit`) but
`int()` raises `ValueError` on it, so `VehicleTelematicsAPI._run` reaches
its except clause.  The internal error is caught — no exception
propagates — but the returned value is the bare error string, a JSON
string rather than a structured payload carrying an `error` field or a
`success` flag, refuting the claim as stated. -/
theorem claim_C2_counterexample :
    pyIsDigitU (pyLast3 "VEH²²²") = true ∧
    pyIsDigit (pyLast3 "VEH²²²") = false ∧
    pyVehicleNumE "VEH²²²" = none ∧
    telematics_run_result (fun _ => 0) 0 "VEH²²²"
      = .errString "Error generating vehicle telematics data: invalid literal for int() with base 10: '²²²'" ∧
    structuredPayload (TelResult.toJson
      (telematics_run_result (fun _ => 0) 0 "VEH²²²")) = false := by
  decide

/-- Claim C2 as amended: every internal error is caught inside the tools
and no exception propagates to the caller of `_run` (all three dispatchers
are total).  `ServiceCenterAPI._run` and `CustomerNotificationAPI._run`
return a structured JSON payload — an `error` message string or a
`success`/`available` boolean — for every action and input.
`VehicleTelematicsAPI._run`, however, departs from the claimed shape on
its error path: when `int(vehicle_id[-3:])` raises (a suffix accepted by
`isdigit` but not decimal, e.g. `"²²²"`), the caught error is returned as
a bare string that is not a structured JSON payload; on every other input
it returns the full snapshot payload. -/
theorem claim_C2_amended :
    (∀ (st : SCState) (now : ℤ) (req : SCRequest),
      structuredPayload (SCResult.toJson (scRun st now req).1) = true)
    ∧ (∀ (st : NState) (now : ℤ) (req : NotifRequest),
      structuredPayload (NotifResult.toJson (notifRun st now req).1) = true)
    ∧ (∀ (hash : String → ℕ) (now : ℤ) (vehicle_id : String) (n : ℕ),
      pyVehicleNumE vehicle_id = some n →
      telematics_run_result hash now vehicle_id
        = .payload (telematics_run hash now vehicle_id))
    ∧ (∀ (hash : String → ℕ) (now : ℤ) (vehicle_id : String),
      pyVehicleNumE vehicle_id = none →
      telematics_run_result hash now vehicle_id
          = .errString ("Error generating vehicle telematics data: invalid literal for int() with base 10: '"
            ++ pyLast3 vehicle_id ++ "'")
        ∧ structuredPayload (TelResult.toJson
            (telematics_run_result hash now vehicle_id)) = false) := by
  refine ⟨fun _ _ _ => scResult_structured _,
    fun _ _ _ => notifResult_structured _, ?_, ?_⟩
  · intro hash now vehicle_id n h
    unfold telematics_run_result
    rw [h]
  · intro hash now vehicle_id h
    unfold telematics_run_result
    rw [h]
    exact ⟨rfl, rfl⟩

theorem claim_C2_amended_witness :
    (pyVehicleNumE "VEH²²²" = none ∧ pyVehicleNumE "VEH001" = some 1) ∧
    (telematics_run_result (fun _ => 0) 0 "VEH²²²"
        = .errString ("Error generating vehicle telematics data: invalid literal for int() with base 10: '"
          ++ pyLast3 "VEH²²²" ++ "'")
      ∧ structuredPayload (TelResult.toJson
          (telematics_run_result (fun _ => 0) 0 "VEH²²²")) = false) ∧
    telematics_run_result (fun _ => 0) 0 "VEH001"
      = .payload (telematics_run (fun _ => 0) 0 "VEH001") :=
  ⟨⟨by decide, by decide⟩,
   claim_C2_amended.2.2.2 (fun _ => 0) 0 "VEH²²²" (by decide),
   claim_C2_amended.2.2.1 (fun _ => 0) 0 "VEH001" 1 (by decide)⟩

/-! ## Claim C10 (disabled notification channels) -/

/-- Claim C10: if a customer exists in the directory and has the requested
channel disabled (falsy preference value), `_send_notification` returns
`success: False` with the error naming the disabled channel, and neither
the global notification history nor any customer's history changes. -/
theorem claim_C10 (st : NState) (now : ℤ)
    (customer_id notification_type message : String) (subject : Option String)
    (c : Customer) (hc : findCustomer customer_id = some c)
    (hdis : (prefGet c notification_type).truthy = false) :
    send_notification st now customer_id notification_type message subject
      = (.err ("Customer " ++ customer_id ++ " has disabled "
          ++ notification_type ++ " notifications"), st) := by
  unfold send_notification
  rw [hc]
  simp [hdis]

theorem claim_C10_witness :
    (findCustomer "VEH002" = some cust002 ∧
      (prefGet cust002 "sms").truthy = false) ∧
    send_notification initialNState 0 "VEH002" "sms" "Service due" none
      = (.err ("Customer " ++ "VEH002" ++ " has disabled " ++ "sms"
          ++ " notifications"), initialNState) :=
  ⟨⟨by decide, by decide⟩,
   claim_C10 initialNState 0 "VEH002" "sms" "Service due" none cust002
     (by decide) (by decide)⟩

end EYT
